import Mathlib

/-!
Shallow embedding of the guardrail / request-pipeline engine of the Slack
Shopify assistant (src/server.js, and the older variant src/unnamed/part_000).

Modelling conventions:
* JavaScript strings are Lean `String`s; `toLowerCase`, `includes`, `trim`
  and the mention-stripping regex replace are re-implemented over `List Char`
  so that every definition is executable and kernel-reducible.
* The global `userRequestCounts` Map is modelled as a total function
  `String → List Nat` defaulting to `[]` (the code only ever reads it through
  `get(u) || []`, so the absent/empty distinction is unobservable).
* The asynchronous pipeline `handleMessage` is modelled twice: a pure version
  (`handleMessage`) in which every external capability succeeds and the
  generated query / execution payload are oracle inputs, and an exception-aware
  version (`handleMessageSafe`) in which each external call site is an
  `Except`-valued oracle, mirroring the try/catch structure of the source.
* The two source variants share all pipeline code except the intent classifier
  and the policy constants, so the pipeline is parameterised over both.
-/

/-- Lowercasing of a JS string, modelling `String.prototype.toLowerCase` on the
ASCII range (all keywords in the source are ASCII). -/
def lowerStr (s : String) : String := ⟨s.data.map Char.toLower⟩

/-- Helper for `strIncludes`: does the haystack start with the needle? -/
def prefixMatch : List Char → List Char → Bool
  | [], _ => true
  | _ :: _, [] => false
  | a :: as, b :: bs => a == b && prefixMatch as bs

/-- Helper for `strIncludes`: does the needle occur at some position? -/
def subMatch : List Char → List Char → Bool
  | needle, [] => prefixMatch needle []
  | needle, c :: tl => prefixMatch needle (c :: tl) || subMatch needle tl

/-- JS `hay.includes(needle)` (substring containment). -/
def strIncludes (hay needle : String) : Bool := subMatch needle.data hay.data

/-- The character class `[A-Z0-9]` of the mention-stripping regex. -/
def isMentionChar (c : Char) : Bool :=
  decide ((65 ≤ c.toNat ∧ c.toNat ≤ 90) ∨ (48 ≤ c.toNat ∧ c.toNat ≤ 57))

/-- After `<@` and one id character: consume further `[A-Z0-9]` characters and
then a closing `>`; `some rest` is the remainder after a successful match. -/
def mentionCont : List Char → Option (List Char)
  | [] => none
  | c :: cs =>
    if isMentionChar c then mentionCont cs
    else if c = '>' then some cs else none

/-- Match `@[A-Z0-9]+>` (the part of a mention after the `<`). -/
def mentionAfterLt : List Char → Option (List Char)
  | '@' :: c :: cs => if isMentionChar c then mentionCont cs else none
  | _ => none

/-- One pass of the global regex replace `/<@[A-Z0-9]+>/g` with `""`.
The fuel argument (instantiated with the input length) bounds the recursion;
every step consumes at least one character, so the fuel never runs out. -/
def stripAux : Nat → List Char → List Char
  | 0, l => l
  | _ + 1, [] => []
  | fuel + 1, c :: cs =>
    if c = '<' then
      match mentionAfterLt cs with
      | some rest => stripAux fuel rest
      | none => c :: stripAux fuel cs
    else c :: stripAux fuel cs

/-- `userMessage.replace(/<@[A-Z0-9]+>/g, '')`. -/
def stripMentions (s : String) : String := ⟨stripAux s.data.length s.data⟩

/-- JS `String.prototype.trim` (modelled over the ASCII whitespace characters
recognised by `Char.isWhitespace`). -/
def jsTrim (s : String) : String :=
  ⟨((s.data.dropWhile Char.isWhitespace).reverse.dropWhile Char.isWhitespace).reverse⟩

/-- `const cleanMessage = userMessage.replace(/<@[A-Z0-9]+>/g, '').trim()`. -/
def cleanMessageOf (userMessage : String) : String := jsTrim (stripMentions userMessage)

/-- `ALLOWED_OPERATIONS` object shape (src/server.js lines 65-70). -/
structure AllowedOperations where
  read : Bool
  update : Bool
  create : Bool
  delete : Bool
deriving DecidableEq

/-- The three access-policy constants of one source variant, grouped so that
the pipeline can be stated once for both variants (they differ only in
`allowedOperations.update`). -/
structure Policy where
  allowedUsers : List String
  adminUsers : List String
  allowedOperations : AllowedOperations
deriving DecidableEq

/-- The five whitelisted Slack user ids (identical in both variants). -/
def SOURCE_USERS : List String :=
  ["U082519ACD8", "U096RH2T72S", "U0821FVJ24D", "U093Q23Q9C0", "U082635FQP9"]

/-- Configuration of src/server.js: `ALLOWED_USERS = ADMIN_USERS` (the same
five ids) and `ALLOWED_OPERATIONS = (read true, update true, ...)`. -/
def SERVER_POLICY : Policy :=
  { allowedUsers := SOURCE_USERS
    adminUsers := SOURCE_USERS
    allowedOperations := ⟨true, true, false, false⟩ }

/-- Configuration of src/unnamed/part_000: same user lists, but
`ALLOWED_OPERATIONS.update = false`. -/
def V0_POLICY : Policy :=
  { allowedUsers := SOURCE_USERS
    adminUsers := SOURCE_USERS
    allowedOperations := ⟨true, false, false, false⟩ }

/-- `function isUserAllowed(userId)` (src/server.js lines 91-94). -/
def isUserAllowed (p : Policy) (userId : String) : Bool :=
  if p.allowedUsers.length = 0 then true
  else p.allowedUsers.contains userId

/-- `function isUserAdmin(userId)` (src/server.js lines 96-98). -/
def isUserAdmin (p : Policy) (userId : String) : Bool :=
  p.adminUsers.contains userId

/-- `RATE_LIMIT` config object (src/server.js lines 72-75). -/
structure RateLimitConfig where
  maxRequests : Nat
  windowMs : Nat

/-- `RATE_LIMIT = (maxRequests 10, windowMs 60000)` in both variants. -/
def RATE_LIMIT : RateLimitConfig := ⟨10, 60000⟩

/-- The global `userRequestCounts` Map, modelled as a total function with
default `[]` (the code reads it only through `get(userId) || []`). -/
def RateState : Type := String → List Nat

/-- A fresh `new Map()`. -/
def emptyRateState : RateState := fun _ => []

/-- `function checkRateLimit(userId)` (src/server.js lines 100-116), with the
global map and `Date.now()` as explicit arguments; returns the boolean result
together with the map after the call. -/
def checkRateLimit (s : RateState) (userId : String) (now : Nat) : Bool × RateState :=
  let userRequests := s userId
  let recentRequests := userRequests.filter (fun timestamp => now - timestamp < RATE_LIMIT.windowMs)
  if RATE_LIMIT.maxRequests ≤ recentRequests.length then
    (false, s)
  else
    (true, fun u => if u = userId then recentRequests ++ [now] else s u)

/-- `k` successive `checkRateLimit` calls for user `u`, all at instant `t`,
starting from map `s`. -/
def crIterFrom (s : RateState) (u : String) (t : Nat) : Nat → RateState
  | 0 => s
  | k + 1 => (checkRateLimit (crIterFrom s u t k) u t).2

/-- `function isWriteOperation(message)` of src/server.js (lines 118-138):
multi-word write keywords, with the interrogative override checked first. -/
def isWriteOperation (message : String) : Bool :=
  let writeKeywords : List String :=
    ["update inventory", "change price", "modify product", "set price",
     "delete product", "remove product", "create product", "add product"]
  let lowerMessage := lowerStr message
  if strIncludes lowerMessage "what" || strIncludes lowerMessage "show" ||
     strIncludes lowerMessage "tell" || strIncludes lowerMessage "how" then
    false
  else
    writeKeywords.any (fun keyword => strIncludes lowerMessage keyword)

/-- `function isWriteOperation(message)` of the older variant
src/unnamed/part_000 (lines 120-134): single-word keywords, no interrogative
override. -/
def isWriteOperationV0 (message : String) : Bool :=
  let writeKeywords : List String :=
    ["update", "change", "modify", "set", "delete", "remove", "create", "add new"]
  let lowerMessage := lowerStr message
  writeKeywords.any (fun keyword => strIncludes lowerMessage keyword)

/-- `SENSITIVE_KEYWORDS` (src/server.js lines 79-85). -/
def SENSITIVE_KEYWORDS : List String :=
  ["delete", "remove", "update price", "change price", "bulk update"]

/-- `function containsSensitiveOperation(message)` (src/server.js lines 140-143). -/
def containsSensitiveOperation (message : String) : Bool :=
  let lowerMessage := lowerStr message
  SENSITIVE_KEYWORDS.any (fun keyword => strIncludes lowerMessage keyword)

/-- `function isMutationQuery(graphqlQuery)` (src/server.js lines 145-151). -/
def isMutationQuery (graphqlQuery : String) : Bool :=
  let queryLower := lowerStr graphqlQuery
  strIncludes queryLower "mutation" ||
  strIncludes queryLower "update" ||
  strIncludes queryLower "delete" ||
  strIncludes queryLower "create"

/-- Terminal outcome of one `handleMessage` invocation; constructors correspond
to the distinct terminal messages of the source (the user-facing strings are
abstracted into constructor names, except for payloads that vary). -/
inductive Outcome where
  /-- Invalid / empty message: silent `return` after logging. -/
  | invalidInput
  /-- GUARDRAIL 1: "Sorry, you are not authorized to use this bot." -/
  | notAuthorized
  /-- GUARDRAIL 2: "Rate limit exceeded. Wait a minute." -/
  | rateLimited
  /-- GUARDRAIL 3a: "Write operations are disabled. Read-only queries only." -/
  | writeDisabled
  /-- GUARDRAIL 3b: "Only administrators can perform updates." -/
  | adminRequired
  /-- GUARDRAIL 5: "This query would modify data. Mutations not allowed." -/
  | mutationBlocked
  /-- "Shopify API error: " followed by the serialized `errors` payload. -/
  | shopifyError (errors : String)
  /-- Final formatted response delivered via `say`. -/
  | success
  /-- Outer catch block: "Error: " followed by the fault message. -/
  | errorReported (message : String)
deriving DecidableEq

/-- Observable result of the pure pipeline model: the terminal outcome plus
which external capabilities were invoked and whether the sensitive-operation
warning was emitted. -/
structure PipelineOutput where
  outcome : Outcome
  genInvoked : Bool
  execInvoked : Bool
  formatInvoked : Bool
  sensitiveWarned : Bool
deriving DecidableEq

/-- `async function handleMessage(userMessage, userId, say, client, channelId)`
(src/server.js lines 182-674), pure model: every external call succeeds; the
LLM's generated query (`genQuery`) and the `errors` field of the Shopify
payload (`execErrors`, `some` iff the field is truthy) are oracle inputs.
`iwo` is the variant's `isWriteOperation` and `p` its policy constants.
GUARDRAIL 3's nested conditionals are flattened into two guards with
identical semantics. Returns the observables and the rate-limit map after
the call. -/
def handleMessage (p : Policy) (iwo : String → Bool) (s : RateState) (now : Nat)
    (userMessage userId genQuery : String) (execErrors : Option String) :
    PipelineOutput × RateState :=
  if userMessage = "" then (⟨.invalidInput, false, false, false, false⟩, s)
  else
    let cleanMessage := cleanMessageOf userMessage
    if isUserAllowed p userId = false then
      (⟨.notAuthorized, false, false, false, false⟩, s)
    else
      let rl := checkRateLimit s userId now
      if rl.1 = false then
        (⟨.rateLimited, false, false, false, false⟩, rl.2)
      else if iwo cleanMessage && (!p.allowedOperations.update && !isUserAdmin p userId) then
        (⟨.writeDisabled, false, false, false, false⟩, rl.2)
      else if iwo cleanMessage && !isUserAdmin p userId then
        (⟨.adminRequired, false, false, false, false⟩, rl.2)
      else
        let warned := containsSensitiveOperation cleanMessage
        if isMutationQuery genQuery && (!p.allowedOperations.update || !isUserAdmin p userId) then
          (⟨.mutationBlocked, true, false, false, warned⟩, rl.2)
        else
          match execErrors with
          | some e => (⟨.shopifyError e, true, true, false, warned⟩, rl.2)
          | none => (⟨.success, true, true, true, warned⟩, rl.2)

/-- Result of each external call site of `handleMessage`, as an oracle:
`Except.error m` means that call would throw/reject with message `m`.
Fields appear in source order. Sites whose failure the source swallows with a
local try/catch (the three progress updates and the status delete) are marked
"caught"; their values are received but never influence control flow. -/
structure ExtEnv where
  /-- `statusMessage = await say('Analyzing your request...')` (line 193). -/
  sayInit : Except String Unit
  /-- `client.chat.update` in the GUARDRAIL 1 rejection (line 200). -/
  updNotAuthorized : Except String Unit
  /-- `client.chat.update` in the GUARDRAIL 2 rejection (line 216). -/
  updRateLimited : Except String Unit
  /-- `client.chat.update` in the GUARDRAIL 3a rejection (line 233). -/
  updWriteDisabled : Except String Unit
  /-- `client.chat.update` in the GUARDRAIL 3b rejection (line 245). -/
  updAdminRequired : Except String Unit
  /-- `say('This is a sensitive operation...')` (line 262, uncaught). -/
  saySensitive : Except String Unit
  /-- Progress update "Generating Shopify query..." (line 268, caught). -/
  updGenerating : Except String Unit
  /-- `anthropic.messages.create` for query generation (line 283). -/
  genQuery : Except String String
  /-- Progress update "Fetching data from Shopify..." (line 507, caught). -/
  updFetching : Except String Unit
  /-- `client.chat.update` in the GUARDRAIL 5 rejection (line 523). -/
  updMutationBlocked : Except String Unit
  /-- `queryShopify` (line 540); on success, the payload's `errors` field. -/
  execute : Except String (Option String)
  /-- Progress update "Formatting your results..." (line 545, caught). -/
  updFormatting : Except String Unit
  /-- `client.chat.update` reporting `shopifyData.errors` (line 558). -/
  updShopifyError : Except String Unit
  /-- `anthropic.messages.create` for response formatting (line 572). -/
  format : Except String String
  /-- `client.chat.delete` of the status message (line 649, caught). -/
  deleteStatus : Except String Unit
  /-- `say(formattedResponse)` (line 659). -/
  sayFinal : Except String Unit
  /-- `client.chat.update` inside the outer catch block (line 665). -/
  updCatch : Except String Unit
  /-- `say` fallback inside the outer catch block (line 671). -/
  sayCatch : Except String Unit

/-- A fault escaping the try body: the thrown message, and whether
`statusMessage` (with a `ts`) existed when it was thrown — which decides
whether the outer catch reports via `chat.update` or via `say`. -/
structure BodyFault where
  message : String
  hasStatus : Bool
deriving DecidableEq

/-- The `try` body of `handleMessage` with explicit exception propagation:
each uncaught external call that fails aborts the body with a `BodyFault`;
each caught one (local try/catch in the source) is ignored. The rate-limit
map after the run is returned in either case, since it is global state. -/
def handleMessageBody (env : ExtEnv) (p : Policy) (iwo : String → Bool)
    (s : RateState) (now : Nat) (userMessage userId : String) :
    Except BodyFault Outcome × RateState :=
  if userMessage = "" then (.ok .invalidInput, s)
  else
    match env.sayInit with
    | .error e => (.error ⟨e, false⟩, s)
    | .ok _ =>
      let cleanMessage := cleanMessageOf userMessage
      if isUserAllowed p userId = false then
        match env.updNotAuthorized with
        | .error e => (.error ⟨e, true⟩, s)
        | .ok _ => (.ok .notAuthorized, s)
      else
        let rl := checkRateLimit s userId now
        if rl.1 = false then
          match env.updRateLimited with
          | .error e => (.error ⟨e, true⟩, rl.2)
          | .ok _ => (.ok .rateLimited, rl.2)
        else if iwo cleanMessage && (!p.allowedOperations.update && !isUserAdmin p userId) then
          match env.updWriteDisabled with
          | .error e => (.error ⟨e, true⟩, rl.2)
          | .ok _ => (.ok .writeDisabled, rl.2)
        else if iwo cleanMessage && !isUserAdmin p userId then
          match env.updAdminRequired with
          | .error e => (.error ⟨e, true⟩, rl.2)
          | .ok _ => (.ok .adminRequired, rl.2)
        else
          let rest : Except BodyFault Outcome × RateState :=
            match env.genQuery with
            | .error e => (.error ⟨e, true⟩, rl.2)
            | .ok graphqlQuery =>
              if isMutationQuery graphqlQuery &&
                 (!p.allowedOperations.update || !isUserAdmin p userId) then
                match env.updMutationBlocked with
                | .error e => (.error ⟨e, true⟩, rl.2)
                | .ok _ => (.ok .mutationBlocked, rl.2)
              else
                match env.execute with
                | .error e => (.error ⟨e, true⟩, rl.2)
                | .ok shopifyErrors =>
                  match shopifyErrors with
                  | some errs =>
                    match env.updShopifyError with
                    | .error e => (.error ⟨e, true⟩, rl.2)
                    | .ok _ => (.ok (.shopifyError errs), rl.2)
                  | none =>
                    match env.format with
                    | .error e => (.error ⟨e, true⟩, rl.2)
                    | .ok _ =>
                      match env.sayFinal with
                      | .error e => (.error ⟨e, true⟩, rl.2)
                      | .ok _ => (.ok .success, rl.2)
          if containsSensitiveOperation cleanMessage then
            match env.saySensitive with
            | .error e => (.error ⟨e, true⟩, rl.2)
            | .ok _ => rest
          else rest

/-- `handleMessage` as seen by the transport layer: the try body wrapped in the
outer catch block (src/server.js lines 661-673). The catch block reports the
fault through `chat.update` (or `say` when no status message exists) — and
that reporting call is itself unprotected in the source, so its failure
escapes as `Except.error` (an unhandled rejection reaching the Bolt
transport layer). -/
def handleMessageSafe (env : ExtEnv) (p : Policy) (iwo : String → Bool)
    (s : RateState) (now : Nat) (userMessage userId : String) :
    Except String Outcome × RateState :=
  match handleMessageBody env p iwo s now userMessage userId with
  | (.ok o, s₂) => (.ok o, s₂)
  | (.error f, s₂) =>
    match (if f.hasStatus then env.updCatch else env.sayCatch) with
    | .ok _ => (.ok (.errorReported f.message), s₂)
    | .error e₂ => (.error e₂, s₂)

/-- Oracle in which every external call succeeds. -/
def allOkEnv : ExtEnv :=
  { sayInit := .ok (), updNotAuthorized := .ok (), updRateLimited := .ok ()
    updWriteDisabled := .ok (), updAdminRequired := .ok (), saySensitive := .ok ()
    updGenerating := .ok (), genQuery := .ok "query \x7b products \x7d"
    updFetching := .ok (), updMutationBlocked := .ok (), execute := .ok none
    updFormatting := .ok (), updShopifyError := .ok (), format := .ok "formatted"
    deleteStatus := .ok (), sayFinal := .ok (), updCatch := .ok (), sayCatch := .ok () }

/-- Oracle in which query generation rejects (e.g. LLM provider error) and the
status-sink update inside the outer catch block also fails. -/
def catchFailEnv : ExtEnv :=
  { allOkEnv with
    genQuery := .error "anthropic api failure"
    updCatch := .error "slack update failed" }

/-! ### Correctness lemmas for the string helpers -/

theorem prefixMatch_iff (n : List Char) : ∀ h : List Char, prefixMatch n h = true ↔ n <+: h := by
  induction n with
  | nil => intro h; simp [prefixMatch, List.nil_prefix]
  | cons a as ih =>
    intro h
    cases h with
    | nil => simp [prefixMatch, List.prefix_nil]
    | cons b bs =>
      simp [prefixMatch, Bool.and_eq_true, beq_iff_eq, ih, List.cons_prefix_cons]

theorem subMatch_iff (n : List Char) : ∀ h : List Char, subMatch n h = true ↔ n <:+: h := by
  intro h
  induction h with
  | nil => simp [subMatch, prefixMatch_iff, List.prefix_nil, List.infix_nil]
  | cons c tl ih =>
    simp [subMatch, Bool.or_eq_true, prefixMatch_iff, ih, List.infix_cons_iff]

theorem strIncludes_iff (hay needle : String) :
    strIncludes hay needle = true ↔ needle.data <:+: hay.data :=
  subMatch_iff needle.data hay.data

/-- Substring search is antitone in the needle: if a longer needle occurs, so
does any infix of it. -/
theorem strIncludes_of_infix {hay n m : String} (hmn : m.data <:+: n.data)
    (h : strIncludes hay n = true) : strIncludes hay m = true :=
  (strIncludes_iff hay m).mpr (hmn.trans ((strIncludes_iff hay n).mp h))

/-! ### Basic facts about the rate limiter -/

/-- Unfolded form of `checkRateLimit`, convenient for case splitting. -/
theorem checkRateLimit_eq (s : RateState) (u : String) (now : Nat) :
    checkRateLimit s u now =
      if RATE_LIMIT.maxRequests ≤
          ((s u).filter (fun timestamp => now - timestamp < RATE_LIMIT.windowMs)).length then
        (false, s)
      else
        (true, fun v => if v = u then
            ((s u).filter (fun timestamp => now - timestamp < RATE_LIMIT.windowMs)) ++ [now]
          else s v) := rfl

/-- A failed check leaves the map untouched. -/
theorem checkRateLimit_false_frame (s : RateState) (u : String) (now : Nat)
    (h : (checkRateLimit s u now).1 = false) : (checkRateLimit s u now).2 = s := by
  by_cases hc : RATE_LIMIT.maxRequests ≤
      ((s u).filter (fun timestamp => now - timestamp < RATE_LIMIT.windowMs)).length
  · rw [checkRateLimit_eq, if_pos hc]
  · rw [checkRateLimit_eq, if_neg hc] at h
    simp at h

/-- A call for user `u` never touches another user's entry. -/
theorem checkRateLimit_frame (s : RateState) (u : String) (now : Nat)
    (v : String) (hne : v ≠ u) : (checkRateLimit s u now).2 v = s v := by
  rw [checkRateLimit_eq]
  split
  · rfl
  · simp [hne]

/-- The boolean result of a call for user `v` depends only on `v`'s entry. -/
theorem checkRateLimit_congr (s₁ s₂ : RateState) (v : String) (now : Nat)
    (h : s₁ v = s₂ v) : (checkRateLimit s₁ v now).1 = (checkRateLimit s₂ v now).1 := by
  rw [checkRateLimit_eq, checkRateLimit_eq, h]
  by_cases hc : RATE_LIMIT.maxRequests ≤
      ((s₂ v).filter (fun timestamp => now - timestamp < RATE_LIMIT.windowMs)).length
  · rw [if_pos hc, if_pos hc]
  · rw [if_neg hc, if_neg hc]

/-- Same-instant timestamps all survive the sliding-window filter. -/
theorem filter_replicate_window (k t : Nat) :
    (List.replicate k t).filter (fun timestamp => t - timestamp < RATE_LIMIT.windowMs)
      = List.replicate k t := by
  apply List.filter_eq_self.mpr
  intro a ha
  rcases List.eq_of_mem_replicate ha with rfl
  simp [RATE_LIMIT]

/-- After `k ≤ maxRequests` same-instant calls from an empty map, user `u`'s
entry holds `k` copies of `t` and all other entries are empty. -/
theorem crIterFrom_empty (u : String) (t : Nat) :
    ∀ k, k ≤ RATE_LIMIT.maxRequests →
      crIterFrom emptyRateState u t k = fun v => if v = u then List.replicate k t else [] := by
  intro k
  induction k with
  | zero =>
    intro _
    funext v
    simp [crIterFrom, emptyRateState]
  | succ k ih =>
    intro hk
    have hk' : k ≤ RATE_LIMIT.maxRequests := Nat.le_of_succ_le hk
    show (checkRateLimit (crIterFrom emptyRateState u t k) u t).2 = _
    rw [ih hk', checkRateLimit_eq]
    rw [if_pos rfl, filter_replicate_window]
    have hlt : ¬ RATE_LIMIT.maxRequests ≤ (List.replicate k t).length := by
      simp only [List.length_replicate]
      omega
    rw [if_neg hlt]
    funext v
    by_cases hv : v = u
    · simp [hv, List.replicate_succ']
    · simp [hv]

/-! ### Claims -/

/-- C2: for every input text, if the lowercased text contains any of the
interrogative markers "what", "show", "tell", "how", then the intent
classifier of src/server.js returns read (`isWriteOperation` is `false`) even
when write keywords are present; in particular
`isWriteOperation "how do I update inventory" = false`. -/
theorem c2_interrogative_forces_read (text : String)
    (h : strIncludes (lowerStr text) "what" = true ∨
         strIncludes (lowerStr text) "show" = true ∨
         strIncludes (lowerStr text) "tell" = true ∨
         strIncludes (lowerStr text) "how" = true) :
    isWriteOperation text = false ∧
    isWriteOperation "how do I update inventory" = false := by
  constructor
  · unfold isWriteOperation
    rcases h with h | h | h | h <;> simp [h]
  · decide

/-- Witness for C2 at the concrete message of the claim. -/
theorem c2_witness : isWriteOperation "how do I update inventory" = false :=
  (c2_interrogative_forces_read "how do I update inventory"
    (Or.inr (Or.inr (Or.inr (by decide))))).1

/-- C5: `checkRateLimit` filters the stored sequence by a strict
`now - timestamp < windowMs` comparison; at or above `maxRequests` recent
entries it returns false without mutating the map, otherwise it stores the
filtered sequence with `now` appended and returns true. With the configured
`maxRequests = 10`, `windowMs = 60000`: from an empty map, ten same-instant
calls all return true, the eleventh returns false (map unchanged), and a call
at `t + 60001` returns true again; an entry exactly `windowMs` old is
expired. -/
theorem c5_checkRateLimit_spec :
    (∀ (s : RateState) (u : String) (now : Nat),
        RATE_LIMIT.maxRequests ≤
            ((s u).filter (fun timestamp => now - timestamp < RATE_LIMIT.windowMs)).length →
        checkRateLimit s u now = (false, s)) ∧
    (∀ (s : RateState) (u : String) (now : Nat),
        ((s u).filter (fun timestamp => now - timestamp < RATE_LIMIT.windowMs)).length <
            RATE_LIMIT.maxRequests →
        checkRateLimit s u now =
          (true, fun v => if v = u then
              ((s u).filter (fun timestamp => now - timestamp < RATE_LIMIT.windowMs)) ++ [now]
            else s v)) ∧
    (∀ (u : String) (t : Nat),
        (∀ k, k < 10 → (checkRateLimit (crIterFrom emptyRateState u t k) u t).1 = true) ∧
        (checkRateLimit (crIterFrom emptyRateState u t 10) u t).1 = false ∧
        (checkRateLimit (crIterFrom emptyRateState u t 10) u t).2 =
          crIterFrom emptyRateState u t 10 ∧
        (checkRateLimit (crIterFrom emptyRateState u t 10) u (t + 60001)).1 = true) ∧
    (∀ t : Nat, ([t] : List Nat).filter
        (fun timestamp => (t + RATE_LIMIT.windowMs) - timestamp < RATE_LIMIT.windowMs) = []) := by
  refine ⟨?_, ?_, ?_, ?_⟩
  · intro s u now h
    rw [checkRateLimit_eq, if_pos h]
  · intro s u now h
    rw [checkRateLimit_eq, if_neg (Nat.not_le.mpr h)]
  · intro u t
    have h10 : (checkRateLimit (crIterFrom emptyRateState u t 10) u t).1 = false := by
      rw [crIterFrom_empty u t 10 le_rfl, checkRateLimit_eq]
      rw [if_pos rfl, filter_replicate_window]
      rw [if_pos (by simp [RATE_LIMIT])]
    refine ⟨?_, h10, checkRateLimit_false_frame _ _ _ h10, ?_⟩
    · intro k hk
      rw [crIterFrom_empty u t k (Nat.le_of_lt hk), checkRateLimit_eq]
      rw [if_pos rfl, filter_replicate_window]
      rw [if_neg (by simp only [List.length_replicate, RATE_LIMIT]; omega)]
    · rw [crIterFrom_empty u t 10 le_rfl, checkRateLimit_eq]
      rw [if_pos rfl]
      have hexpired :
          (List.replicate 10 t).filter
            (fun timestamp => (t + 60001) - timestamp < RATE_LIMIT.windowMs) = [] := by
        apply List.filter_eq_nil_iff.mpr
        intro a ha
        rcases List.eq_of_mem_replicate ha with rfl
        simp only [RATE_LIMIT, decide_eq_true_eq]
        omega
      rw [hexpired]
      rw [if_neg (by simp [RATE_LIMIT])]
  · intro t
    simp only [List.filter, RATE_LIMIT]
    have : ¬ (t + 60000 - t < 60000) := by omega
    simp [this]

/-- Witness for C5: the scenario at user "A", instant 0. -/
theorem c5_witness :
    (checkRateLimit (crIterFrom emptyRateState "A" 0 3) "A" 0).1 = true ∧
    (checkRateLimit (crIterFrom emptyRateState "A" 0 10) "A" 0).1 = false ∧
    (checkRateLimit (crIterFrom emptyRateState "A" 0 10) "A" (0 + 60001)).1 = true :=
  ⟨(c5_checkRateLimit_spec.2.2.1 "A" 0).1 3 (by omega),
   (c5_checkRateLimit_spec.2.2.1 "A" 0).2.1,
   (c5_checkRateLimit_spec.2.2.1 "A" 0).2.2.2⟩

/-- C6: rate-limit state is isolated per user — any number of calls for user
`u` leaves a distinct user `v`'s entry unchanged, and does not change the
boolean result of `v`'s next call. -/
theorem c6_rate_limiter_isolated (s : RateState) (u v : String) (now now' : Nat)
    (hne : v ≠ u) :
    (∀ k, crIterFrom s u now k v = s v) ∧
    (∀ k, (checkRateLimit (crIterFrom s u now k) v now').1 =
      (checkRateLimit s v now').1) := by
  have hframe : ∀ k, crIterFrom s u now k v = s v := by
    intro k
    induction k with
    | zero => rfl
    | succ k ih =>
      show (checkRateLimit (crIterFrom s u now k) u now).2 v = s v
      rw [checkRateLimit_frame _ _ _ _ hne, ih]
  exact ⟨hframe, fun k => checkRateLimit_congr _ _ _ _ (hframe k)⟩

/-- Witness for C6: user "A" exhausts the limit (11 calls) and user "B" is
unaffected. -/
theorem c6_witness :
    crIterFrom emptyRateState "A" 0 11 "B" = emptyRateState "B" ∧
    (checkRateLimit (crIterFrom emptyRateState "A" 0 11) "B" 0).1 =
      (checkRateLimit emptyRateState "B" 0).1 := by
  have h := c6_rate_limiter_isolated emptyRateState "A" "B" 0 0 (by decide)
  exact ⟨h.1 11, h.2 11⟩

/-- C7: `isMutationQuery q` is true iff the lowercased query contains, as a
substring, the literal `mutation` keyword or one of the write-verb tokens
`update`, `delete`, `create`; in particular the read-only query
`query { products(query:"title:*update*") }` is classified as a mutation. -/
theorem c7_isMutationQuery_spec (q : String) :
    (isMutationQuery q = true ↔
      ∃ kw ∈ (["mutation", "update", "delete", "create"] : List String),
        kw.data <:+: (lowerStr q).data) ∧
    isMutationQuery "query \x7b products(query:\"title:*update*\") \x7d" = true := by
  constructor
  · unfold isMutationQuery
    simp only [Bool.or_eq_true, strIncludes_iff]
    constructor
    · rintro (((h | h) | h) | h)
      · exact ⟨"mutation", by simp, h⟩
      · exact ⟨"update", by simp, h⟩
      · exact ⟨"delete", by simp, h⟩
      · exact ⟨"create", by simp, h⟩
    · rintro ⟨kw, hkw, h⟩
      simp only [List.mem_cons, List.not_mem_nil, or_false] at hkw
      rcases hkw with rfl | rfl | rfl | rfl
      · exact Or.inl (Or.inl (Or.inl h))
      · exact Or.inl (Or.inl (Or.inr h))
      · exact Or.inl (Or.inr h)
      · exact Or.inr h
  · decide

/-- Witness for C7 at the concrete query of the claim. -/
theorem c7_witness :
    isMutationQuery "query \x7b products(query:\"title:*update*\") \x7d" = true :=
  (c7_isMutationQuery_spec "query \x7b products(query:\"title:*update*\") \x7d").2

/-- C1 (amended): when `allowedOperations.update` is false, a NON-ADMIN user's
write-classified message terminates at GUARDRAIL 3 with the write-disabled
outcome and query generation is never invoked. (The original claim's "every
userId (including admins)" fails: GUARDRAIL 3 lets admins through even with
update = false — see `c1_counterexample`.) -/
theorem c1_write_disabled_blocks_nonadmins (p : Policy) (iwo : String → Bool)
    (s : RateState) (now : Nat) (userMessage userId genQuery : String)
    (execErrors : Option String)
    (hmsg : userMessage ≠ "")
    (hupd : p.allowedOperations.update = false)
    (hadmin : isUserAdmin p userId = false)
    (hallow : isUserAllowed p userId = true)
    (hrate : (checkRateLimit s userId now).1 = true)
    (hwrite : iwo (cleanMessageOf userMessage) = true) :
    (handleMessage p iwo s now userMessage userId genQuery execErrors).1.outcome
        = Outcome.writeDisabled ∧
    (handleMessage p iwo s now userMessage userId genQuery execErrors).1.genInvoked
        = false := by
  unfold handleMessage
  simp [hmsg, hupd, hadmin, hallow, hrate, hwrite]

/-- Witness for the amended C1. -/
theorem c1_witness :
    (handleMessage ⟨[], [], ⟨true, false, false, false⟩⟩ isWriteOperationV0 emptyRateState 0
        "delete product 123" "UANYONE" "query x" none).1.outcome = Outcome.writeDisabled ∧
    (handleMessage ⟨[], [], ⟨true, false, false, false⟩⟩ isWriteOperationV0 emptyRateState 0
        "delete product 123" "UANYONE" "query x" none).1.genInvoked = false :=
  c1_write_disabled_blocks_nonadmins ⟨[], [], ⟨true, false, false, false⟩⟩ isWriteOperationV0
    emptyRateState 0 "delete product 123" "UANYONE" "query x" none
    (by decide) rfl (by decide) (by decide) (by decide) (by decide)

/-- C1 counterexample: under the part_000 configuration (`update = false`), an
ADMIN user's write-classified message does NOT terminate at the
pre-classification stage — query generation is invoked, contradicting "when
update is false, no user may perform a write" at that stage. -/
theorem c1_counterexample :
    V0_POLICY.allowedOperations.update = false ∧
    isWriteOperationV0 (cleanMessageOf "delete product 123") = true ∧
    isUserAdmin V0_POLICY "U082519ACD8" = true ∧
    (handleMessage V0_POLICY isWriteOperationV0 emptyRateState 0
        "delete product 123" "U082519ACD8" "query x" none).1.genInvoked = true ∧
    (handleMessage V0_POLICY isWriteOperationV0 emptyRateState 0
        "delete product 123" "U082519ACD8" "query x" none).1.outcome
      ≠ Outcome.writeDisabled :=
  ⟨rfl, by decide, by decide, by decide, by decide⟩

/-- C3 (amended): a non-admin allowed user, not rate-limited, whose message the
intent classifier flags as write (e.g. "update inventory for SKU-1"), is
terminated with the admin-required outcome and generation is never invoked
(with `update = true` as in the server.js configuration). The claim's literal
message "update price of SKU-1" matches none of the server.js write keywords —
see `c3_counterexample`. -/
theorem c3_admin_required_for_write (p : Policy) (s : RateState) (now : Nat)
    (userMessage userId genQuery : String) (execErrors : Option String)
    (hmsg : userMessage ≠ "")
    (hupd : p.allowedOperations.update = true)
    (hadmin : isUserAdmin p userId = false)
    (hallow : isUserAllowed p userId = true)
    (hrate : (checkRateLimit s userId now).1 = true)
    (hwrite : isWriteOperation (cleanMessageOf userMessage) = true) :
    (handleMessage p isWriteOperation s now userMessage userId genQuery execErrors).1.outcome
        = Outcome.adminRequired ∧
    (handleMessage p isWriteOperation s now userMessage userId genQuery execErrors).1.genInvoked
        = false := by
  unfold handleMessage
  simp [hmsg, hupd, hadmin, hallow, hrate, hwrite]

/-- Witness for the amended C3. -/
theorem c3_witness :
    (handleMessage ⟨["UTESTUSER"], [], ⟨true, true, false, false⟩⟩ isWriteOperation
        emptyRateState 0 "update inventory for SKU-1" "UTESTUSER" "query x" none).1.outcome
      = Outcome.adminRequired ∧
    (handleMessage ⟨["UTESTUSER"], [], ⟨true, true, false, false⟩⟩ isWriteOperation
        emptyRateState 0 "update inventory for SKU-1" "UTESTUSER" "query x" none).1.genInvoked
      = false :=
  c3_admin_required_for_write ⟨["UTESTUSER"], [], ⟨true, true, false, false⟩⟩
    emptyRateState 0 "update inventory for SKU-1" "UTESTUSER" "query x" none
    (by decide) rfl (by decide) (by decide) (by decide) (by decide)

/-- C3 counterexample: the exact message of the claim, "update price of
SKU-1", is NOT classified as a write by src/server.js's `isWriteOperation`
(its keyword list has "change price" and "set price" but not "update price"),
so an allowed non-admin sender reaches query generation and the outcome is not
the admin-required rejection. -/
theorem c3_counterexample :
    isUserAllowed ⟨["UTESTUSER"], [], ⟨true, true, false, false⟩⟩ "UTESTUSER" = true ∧
    isUserAdmin ⟨["UTESTUSER"], [], ⟨true, true, false, false⟩⟩ "UTESTUSER" = false ∧
    isWriteOperation (cleanMessageOf "update price of SKU-1") = false ∧
    (handleMessage ⟨["UTESTUSER"], [], ⟨true, true, false, false⟩⟩ isWriteOperation
        emptyRateState 0 "update price of SKU-1" "UTESTUSER" "query x" none).1.genInvoked
      = true ∧
    (handleMessage ⟨["UTESTUSER"], [], ⟨true, true, false, false⟩⟩ isWriteOperation
        emptyRateState 0 "update price of SKU-1" "UTESTUSER" "query x" none).1.outcome
      ≠ Outcome.adminRequired :=
  ⟨by decide, by decide, by decide, by decide, by decide⟩

/-- C4: strict linear short-circuit order. A disallowed user gets the
not-authorized outcome with no later stage run (the rate-limit map is not even
read — output state is `s`); an allowed but rate-limited user gets the
rate-limit outcome (not the write-disabled one) even when the text classifies
as a write, again with generation never invoked; and the model returns exactly
one terminal outcome by construction. -/
theorem c4_pipeline_short_circuit (p : Policy) (iwo : String → Bool) (s : RateState)
    (now : Nat) (userMessage userId genQuery : String) (execErrors : Option String)
    (hmsg : userMessage ≠ "") :
    (isUserAllowed p userId = false →
      handleMessage p iwo s now userMessage userId genQuery execErrors
        = (⟨Outcome.notAuthorized, false, false, false, false⟩, s)) ∧
    (isUserAllowed p userId = true → (checkRateLimit s userId now).1 = false →
      iwo (cleanMessageOf userMessage) = true →
      handleMessage p iwo s now userMessage userId genQuery execErrors
        = (⟨Outcome.rateLimited, false, false, false, false⟩, s)) := by
  constructor
  · intro hdeny
    unfold handleMessage
    simp [hmsg, hdeny]
  · intro hallow hrate hwrite
    unfold handleMessage
    simp [hmsg, hallow, hrate, checkRateLimit_false_frame s userId now hrate]

/-- Witness for C4: an id outside the whitelist is rejected before any other
stage. -/
theorem c4_witness :
    handleMessage SERVER_POLICY isWriteOperation emptyRateState 0
        "show products" "USTRANGER" "q" none
      = (⟨Outcome.notAuthorized, false, false, false, false⟩, emptyRateState) :=
  (c4_pipeline_short_circuit SERVER_POLICY isWriteOperation emptyRateState 0
      "show products" "USTRANGER" "q" none (by decide)).1 (by decide)

/-- C8: whenever the execution stage actually runs and the Shopify payload
carries a (truthy) `errors` field, the pipeline terminates reporting that
serialized error payload verbatim and the response-formatting capability is
never invoked. -/
theorem c8_shopify_errors_terminal (p : Policy) (iwo : String → Bool) (s : RateState)
    (now : Nat) (userMessage userId genQuery e : String)
    (hexec : (handleMessage p iwo s now userMessage userId genQuery (some e)).1.execInvoked
      = true) :
    (handleMessage p iwo s now userMessage userId genQuery (some e)).1.outcome
        = Outcome.shopifyError e ∧
    (handleMessage p iwo s now userMessage userId genQuery (some e)).1.formatInvoked
        = false := by
  unfold handleMessage at hexec ⊢
  by_cases h1 : userMessage = ""
  · simp [h1] at hexec
  · by_cases h2 : isUserAllowed p userId = false
    · simp [h1, h2] at hexec
    · by_cases h3 : (checkRateLimit s userId now).1 = false
      · simp [h1, h2, h3] at hexec
      · by_cases h4 : (iwo (cleanMessageOf userMessage) &&
            (!p.allowedOperations.update && !isUserAdmin p userId)) = true
        · simp [h1, h2, h3, h4] at hexec
        · by_cases h5 : (iwo (cleanMessageOf userMessage) && !isUserAdmin p userId) = true
          · simp [h1, h2, h3, h4, h5] at hexec
          · by_cases h6 : (isMutationQuery genQuery &&
                (!p.allowedOperations.update || !isUserAdmin p userId)) = true
            · simp [h1, h2, h3, h4, h5, h6] at hexec
            · simp [h1, h2, h3, h4, h5, h6]

/-- Witness for C8: a read request whose execution payload carries errors. -/
theorem c8_witness :
    (handleMessage SERVER_POLICY isWriteOperation emptyRateState 0
        "show products" "U082519ACD8" "query x" (some "THROTTLED")).1.outcome
      = Outcome.shopifyError "THROTTLED" ∧
    (handleMessage SERVER_POLICY isWriteOperation emptyRateState 0
        "show products" "U082519ACD8" "query x" (some "THROTTLED")).1.formatInvoked
      = false :=
  c8_shopify_errors_terminal SERVER_POLICY isWriteOperation emptyRateState 0
    "show products" "U082519ACD8" "query x" "THROTTLED" (by decide)

/-- Any query mentioning `created_at` or `updated_at` trips `isMutationQuery`,
because "create" and "update" are substrings of those tokens. -/
theorem isMutationQuery_of_timestamp (q : String)
    (h : strIncludes (lowerStr q) "created_at" = true ∨
         strIncludes (lowerStr q) "updated_at" = true) :
    isMutationQuery q = true := by
  unfold isMutationQuery
  rcases h with h | h
  · have hc : strIncludes (lowerStr q) "create" = true :=
      strIncludes_of_infix ((strIncludes_iff "created_at" "create").mp (by decide)) h
    simp [hc]
  · have hu : strIncludes (lowerStr q) "update" = true :=
      strIncludes_of_infix ((strIncludes_iff "updated_at" "update").mp (by decide)) h
    simp [hu]

/-- C10: every query containing `created_at` or `updated_at` (case-insensitive)
is classified as a mutation; consequently, once a request reaches query
generation, a purely read-only generated query fetching the advertised
`global.created_at` / `global.updated_at` metafields is blocked at
GUARDRAIL 5 (and never executed) unless the user is an admin and updates are
enabled. -/
theorem c10_timestamp_metafields_blocked :
    (∀ q : String,
        strIncludes (lowerStr q) "created_at" = true ∨
        strIncludes (lowerStr q) "updated_at" = true →
        isMutationQuery q = true) ∧
    (∀ (p : Policy) (iwo : String → Bool) (s : RateState) (now : Nat)
        (userMessage userId genQuery : String) (execErrors : Option String),
        strIncludes (lowerStr genQuery) "updated_at" = true →
        (p.allowedOperations.update = false ∨ isUserAdmin p userId = false) →
        (handleMessage p iwo s now userMessage userId genQuery execErrors).1.genInvoked
          = true →
        (handleMessage p iwo s now userMessage userId genQuery execErrors).1.outcome
            = Outcome.mutationBlocked ∧
        (handleMessage p iwo s now userMessage userId genQuery execErrors).1.execInvoked
          = false) := by
  refine ⟨isMutationQuery_of_timestamp, ?_⟩
  intro p iwo s now userMessage userId genQuery execErrors hq hblock hgen
  have hm : isMutationQuery genQuery = true := isMutationQuery_of_timestamp genQuery (Or.inr hq)
  have hcond : (isMutationQuery genQuery &&
      (!p.allowedOperations.update || !isUserAdmin p userId)) = true := by
    rcases hblock with hb | hb <;> simp [hm, hb]
  unfold handleMessage at hgen ⊢
  by_cases h1 : userMessage = ""
  · simp [h1] at hgen
  · by_cases h2 : isUserAllowed p userId = false
    · simp [h1, h2] at hgen
    · by_cases h3 : (checkRateLimit s userId now).1 = false
      · simp [h1, h2, h3] at hgen
      · by_cases h4 : (iwo (cleanMessageOf userMessage) &&
            (!p.allowedOperations.update && !isUserAdmin p userId)) = true
        · simp [h1, h2, h3, h4] at hgen
        · by_cases h5 : (iwo (cleanMessageOf userMessage) && !isUserAdmin p userId) = true
          · simp [h1, h2, h3, h4, h5] at hgen
          · simp [h1, h2, h3, h4, h5, hcond]

/-- Witness for C10: a read-only-looking query fetching `updated_at` is blocked
at GUARDRAIL 5 under the part_000 policy (updates disabled), even for an
admin. -/
theorem c10_witness :
    isMutationQuery "metafield(namespace: \"global\", key: \"updated_at\")" = true ∧
    (handleMessage V0_POLICY isWriteOperationV0 emptyRateState 0 "show products"
        "U082519ACD8" "query \x7b updated_at \x7d" none).1.outcome
      = Outcome.mutationBlocked :=
  ⟨c10_timestamp_metafields_blocked.1 "metafield(namespace: \"global\", key: \"updated_at\")"
      (Or.inr (by decide)),
   (c10_timestamp_metafields_blocked.2 V0_POLICY isWriteOperationV0 emptyRateState 0
      "show products" "U082519ACD8" "query \x7b updated_at \x7d" none
      (by decide) (Or.inl rfl) (by decide)).1⟩

/-- C9 (amended): every failure combination of the external capabilities is
recovered by the outer catch block — PROVIDED the status-sink call made inside
that catch block itself succeeds (the source does not protect it). The three
mid-pipeline progress updates and the status delete are individually
try/caught and can never influence the result (they are ignored by
`handleMessageBody`). The original claim's "never lets a fault propagate ...
status-sink update failures are never escalated" fails when the catch block's
own `chat.update` rejects — see `c9_counterexample`. -/
theorem c9_faults_recovered_if_report_succeeds (env : ExtEnv) (p : Policy)
    (iwo : String → Bool) (s : RateState) (now : Nat) (userMessage userId : String)
    (hupd : env.updCatch = Except.ok ()) (hsay : env.sayCatch = Except.ok ()) :
    ∃ o : Outcome,
      (handleMessageSafe env p iwo s now userMessage userId).1 = Except.ok o := by
  unfold handleMessageSafe
  rcases hbody : handleMessageBody env p iwo s now userMessage userId with ⟨r, s₂⟩
  cases r with
  | ok o => exact ⟨o, rfl⟩
  | error f =>
    rcases f with ⟨m, hs⟩
    cases hs
    · exact ⟨.errorReported m, by simp [hsay]⟩
    · exact ⟨.errorReported m, by simp [hupd]⟩

/-- Witness for the amended C9: the query-generation capability rejects, and
the handler still completes normally because the catch-block report
succeeds. -/
theorem c9_witness :
    ∃ o : Outcome,
      (handleMessageSafe { allOkEnv with genQuery := Except.error "llm down" }
        SERVER_POLICY isWriteOperation emptyRateState 0
        "show products" "U082519ACD8").1 = Except.ok o :=
  c9_faults_recovered_if_report_succeeds
    { allOkEnv with genQuery := Except.error "llm down" }
    SERVER_POLICY isWriteOperation emptyRateState 0 "show products" "U082519ACD8" rfl rfl

/-- C9 counterexample: query generation rejects AND the status-sink update
inside the outer catch block rejects; the handler then terminates with an
unhandled `Except.error` escaping to the transport layer — a status-sink
update failure that is escalated, not swallowed. -/
theorem c9_counterexample :
    catchFailEnv.genQuery = Except.error "anthropic api failure" ∧
    catchFailEnv.updCatch = Except.error "slack update failed" ∧
    (handleMessageSafe catchFailEnv SERVER_POLICY isWriteOperation emptyRateState 0
        "show products" "U082519ACD8").1 = Except.error "slack update failed" :=
  ⟨rfl, rfl, rfl⟩
